import Mathlib

/-!
Model of `src/tracker_store.py`: the event-sourced conversation-state
persistence layer (`TrackerStore`, `InMemoryTrackerStore`, `SQLTrackerStore`,
`FailSafeTrackerStore`).

The embedding is shallow: the SQL `events` table is a list of rows in
insertion order (the autoincrement primary key is assigned by the database
and never read by this module, so it is omitted), server timestamps are
natural numbers supplied by an explicit clock argument, and the
`ORDER BY timestamp` of `_event_query` is modelled relationally — the
database may return any permutation of the selected rows that is sorted by
timestamp, since SQL leaves the relative order of rows with equal
timestamps unspecified (the query has no secondary sort key).

The event object model, `Dialogue` and `DialogueStateTracker` live outside
this repository (rasa.shared.core); they are modelled from the spec:
events serialise losslessly to and from their structured form, and
replaying an event list yields a tracker carrying exactly that list.
-/

namespace TrackerStoreModel

/-- Modelled from the spec: `SessionStarted.type_name` of the external
event model — the distinguished session-boundary type discriminator. -/
def sessionStartedTypeName : String := "session_started"

/-- Modelled from the spec: the `ACTION_LISTEN_NAME` constant. -/
def actionListenName : String := "action_listen"

/-- Modelled from the spec: an event is an opaque structured record with a
required `type` discriminator, an optional top-level `name` field (the
action name read by `data.get("name")`), an optional nested intent name
(read by `data.get("parse_data", {}).get("intent", {}).get("name")`), and
further opaque serialized content. -/
structure Event where
  type_name : String
  name : Option String
  intent_name : Option String
  payload : Nat
deriving DecidableEq

/-- Modelled from the spec: the synthetic listening event
`ActionExecuted(ACTION_LISTEN_NAME)`. -/
def actionListenEvent : Event :=
  { type_name := "action", name := some actionListenName,
    intent_name := none, payload := 0 }

/-- Modelled from the spec: a `Dialogue` is the serializable form of a
tracker, carrying the conversation name and the event list. -/
structure Dialogue where
  name : String
  events : List Event
deriving DecidableEq

/-- Conversation schema; the store only tests its presence and hands its
slots to tracker construction. -/
structure Domain where
  slots : List String
deriving DecidableEq

/-- Modelled from the spec: a tracker is derived state obtained by
replaying an event log; the store reads `sender_id` and `events`.  Slot
state is part of the external replay semantics and is not modelled. -/
structure DialogueStateTracker where
  sender_id : String
  events : List Event
  max_event_history : Option Nat
deriving DecidableEq

/-- Modelled from the spec: `tracker.update(event)` appends the event. -/
def DialogueStateTracker.update (t : DialogueStateTracker) (e : Event) :
    DialogueStateTracker :=
  { t with events := t.events ++ [e] }

/-- A stored tracker representation: the current textual (json) format or
the legacy binary (pickled) format.  Both carry the dialogue losslessly;
attempting `json.loads` on pickled bytes raises `UnicodeDecodeError`,
which is what routes `deserialise_tracker` to the legacy branch. -/
inductive SerialisedTracker where
  | json (d : Dialogue)
  | pickled (d : Dialogue)
deriving DecidableEq

/-- `TrackerStore.serialise_tracker`:
`json.dumps(tracker.as_dialogue().as_dict())`. -/
def serialise_tracker (t : DialogueStateTracker) : SerialisedTracker :=
  SerialisedTracker.json { name := t.sender_id, events := t.events }

/-- `TrackerStore.deserialise_tracker` combined with `init_tracker`: try
the json decode first; on `UnicodeDecodeError` fall back to
`_deserialize_dialogue_from_pickle`, which emits one deprecation warning.
The second component counts the deprecation warnings the call emits. -/
def deserialise_tracker (max_event_history : Option Nat) (sender_id : String) :
    SerialisedTracker → DialogueStateTracker × Nat
  | SerialisedTracker.json d =>
      ({ sender_id := sender_id, events := d.events,
         max_event_history := max_event_history }, 0)
  | SerialisedTracker.pickled d =>
      ({ sender_id := sender_id, events := d.events,
         max_event_history := max_event_history }, 1)

/-- A broker payload: `{"sender_id": ...}` merged with the event's own
serialized fields (`TrackerStore.stream_events`). -/
abbrev Payload := String × Event

/-- `InMemoryTrackerStore`: a map from conversation id to the serialized
event-log text, plus the fields inherited from `TrackerStore`. -/
structure InMemoryTrackerStore where
  domain : Option Domain
  event_broker : Bool
  max_event_history : Option Nat
  store : String → Option SerialisedTracker

/-- `InMemoryTrackerStore.retrieve`: look the id up; if present,
deserialise and return the tracker, else `None`.  Note that this path
does not consult `self.domain`. -/
def InMemoryTrackerStore.retrieve (m : InMemoryTrackerStore)
    (sender_id : String) : Option DialogueStateTracker :=
  match m.store sender_id with
  | some s => some (deserialise_tracker m.max_event_history sender_id s).1
  | none => none

/-- `TrackerStore.number_of_existing_events` as inherited by the in-memory
store: the length of the retrieved tracker's event list, or 0. -/
def InMemoryTrackerStore.number_of_existing_events (m : InMemoryTrackerStore)
    (sender_id : String) : Nat :=
  match m.retrieve sender_id with
  | some tr => tr.events.length
  | none => 0

/-- `TrackerStore.stream_events` as inherited by the in-memory store:
publish the islice of the tracker's events from the existing-events offset
to the end, each merged with the sender id, in order. -/
def InMemoryTrackerStore.stream_events (m : InMemoryTrackerStore)
    (t : DialogueStateTracker) : List Payload :=
  (t.events.drop (m.number_of_existing_events t.sender_id)).map
    (fun e => (t.sender_id, e))

/-- `InMemoryTrackerStore.save`: stream to the broker when one is
configured, then overwrite the entry for the tracker's sender id with the
serialized tracker.  Returns the updated store and the published
payloads. -/
def InMemoryTrackerStore.save (m : InMemoryTrackerStore)
    (t : DialogueStateTracker) : InMemoryTrackerStore × List Payload :=
  let published := if m.event_broker then m.stream_events t else []
  ({ m with store := fun id =>
      if id = t.sender_id then some (serialise_tracker t) else m.store id },
   published)

/-- Membership in the set returned by `InMemoryTrackerStore.keys`. -/
def InMemoryTrackerStore.hasKey (m : InMemoryTrackerStore)
    (sender_id : String) : Prop :=
  (m.store sender_id).isSome = true

/-- `TrackerStore.init_tracker`: a fresh tracker for the id, carrying the
store's current `max_event_history`. -/
def InMemoryTrackerStore.init_tracker (m : InMemoryTrackerStore)
    (sender_id : String) : DialogueStateTracker :=
  { sender_id := sender_id, events := [],
    max_event_history := m.max_event_history }

/-- `TrackerStore.create_tracker`: init a tracker, optionally append the
listening action, save it, and return it. -/
def InMemoryTrackerStore.create_tracker (m : InMemoryTrackerStore)
    (sender_id : String) (append_action_listen : Bool) :
    DialogueStateTracker × InMemoryTrackerStore :=
  let t0 := m.init_tracker sender_id
  let t := if append_action_listen then t0.update actionListenEvent else t0
  (t, (m.save t).1)

/-- `TrackerStore.get_or_create_tracker`: first overwrite the store's
`max_event_history` with the argument, then retrieve; on absence create
(and thereby persist) a fresh tracker. -/
def InMemoryTrackerStore.get_or_create_tracker (m : InMemoryTrackerStore)
    (sender_id : String) (max_event_history : Option Nat)
    (append_action_listen : Bool) :
    DialogueStateTracker × InMemoryTrackerStore :=
  let m1 := { m with max_event_history := max_event_history }
  match m1.retrieve sender_id with
  | some t => (t, m1)
  | none => m1.create_tracker sender_id append_action_listen

/-- `FailSafeTrackerStore.retrieve`: return the primary's result; on any
exception invoke the error callback and return `None`.  The second
component counts callback invocations. -/
def failSafeRetrieve (primary : Except String (Option DialogueStateTracker)) :
    Option DialogueStateTracker × Nat :=
  match primary with
  | Except.ok v => (v, 0)
  | Except.error _ => (none, 1)

/-- `FailSafeTrackerStore.keys`: return the primary's result; on any
exception invoke the error callback and return the empty collection. -/
def failSafeKeys (primary : Except String (List String)) :
    List String × Nat :=
  match primary with
  | Except.ok v => (v, 0)
  | Except.error _ => ([], 1)

/-- `FailSafeTrackerStore.save`: try the primary save; on any exception
invoke the error callback and then save to the fallback store — whose own
outcome (including failure) propagates to the caller unchanged.  The
second component counts callback invocations. -/
def failSafeSave {σ : Type} (primary : Except String Unit) (fallback : σ)
    (fallbackSave : σ → Except String σ) : Except String σ × Nat :=
  match primary with
  | Except.ok _ => (Except.ok fallback, 0)
  | Except.error _ => (fallbackSave fallback, 1)

/-- One row of the SQL `events` table (`SQLTrackerStore.SQLEvent`).  The
autoincrement `id` column is generated by the database and never read by
the source module, so it is omitted. -/
structure SQLEvent where
  sender_id : String
  type_name : String
  timestamp : Nat
  intent_name : Option String
  action_name : Option String
  data : Event
deriving DecidableEq

/-- Comparison of rows by the `timestamp` column (non-strict). -/
def tsLE (a b : SQLEvent) : Prop := a.timestamp ≤ b.timestamp

/-- Comparison of rows by the `timestamp` column (strict). -/
def tsLT (a b : SQLEvent) : Prop := a.timestamp < b.timestamp

instance : DecidableRel tsLE :=
  fun a b => inferInstanceAs (Decidable (a.timestamp ≤ b.timestamp))

instance : DecidableRel tsLT :=
  fun a b => inferInstanceAs (Decidable (a.timestamp < b.timestamp))

instance : IsAntisymm SQLEvent tsLT :=
  ⟨fun _ _ h1 h2 => absurd h1 (Nat.lt_asymm h2)⟩

/-- The rows of the table belonging to one sender id, in insertion
order (the `sender_id == sender_id` filter of `_event_query`). -/
def senderRows (rows : List SQLEvent) (sender_id : String) : List SQLEvent :=
  rows.filter (fun r => r.sender_id == sender_id)

/-- The timestamps of the sender's `SessionStarted` rows — the rows the
`session_start_sub_query` aggregates over. -/
def sessionStartTimes (rows : List SQLEvent) (sender_id : String) : List Nat :=
  ((senderRows rows sender_id).filter
      (fun r => r.type_name == sessionStartedTypeName)).map
    (fun r => r.timestamp)

/-- `sa.func.max` over the session-start timestamps: `None` on an empty
set, as in SQL. -/
def sessionStart (rows : List SQLEvent) (sender_id : String) : Option Nat :=
  (sessionStartTimes rows sender_id).max?

/-- The windowing disjunction of `_event_query`:
`timestamp >= session_start OR session_start IS NULL`. -/
def inWindow (start : Option Nat) (r : SQLEvent) : Bool :=
  match start with
  | none => true
  | some t0 => decide (t0 ≤ r.timestamp)

/-- The multiset of rows selected by `_event_query` for a sender, in
insertion order (before the `ORDER BY`). -/
def queryRows (rows : List SQLEvent) (sender_id : String)
    (fetch_events_from_all_sessions : Bool) : List SQLEvent :=
  if fetch_events_from_all_sessions then senderRows rows sender_id
  else (senderRows rows sender_id).filter (inWindow (sessionStart rows sender_id))

/-- The possible result sequences of `_event_query(...).all()`: any
permutation of the selected rows that is sorted by the `timestamp` column.
SQL fixes no relative order between rows with equal timestamps, because
the query orders by `timestamp` alone. -/
def IsQueryResult (rows : List SQLEvent) (sender_id : String)
    (fetch_events_from_all_sessions : Bool) (result : List SQLEvent) : Prop :=
  List.Perm result (queryRows rows sender_id fetch_events_from_all_sessions) ∧
  List.Pairwise tsLE result

/-- `SQLTrackerStore`: the fields of the store that the claims touch, with
the `events` table as a list of rows in insertion order. -/
structure SQLTrackerStore where
  domain : Option Domain
  event_broker : Bool
  max_event_history : Option Nat
  retrieve_events_from_previous_conversation_sessions : Option Bool
  rows : List SQLEvent

/-- Python truthiness of the deprecated
`retrieve_events_from_previous_conversation_sessions` attribute
(`None` and `False` are falsy). -/
def SQLTrackerStore.fetchAllFlag (s : SQLTrackerStore) : Bool :=
  s.retrieve_events_from_previous_conversation_sessions.getD false

/-- The tail of `SQLTrackerStore._retrieve`: decode the returned rows and
replay them if the domain is set and at least one row came back, else
return `None`. -/
def sqlRetrieveOfRows (s : SQLTrackerStore) (sender_id : String)
    (result : List SQLEvent) : Option DialogueStateTracker :=
  if s.domain.isSome ∧ result ≠ [] then
    some { sender_id := sender_id, events := result.map (fun r => r.data),
           max_event_history := none }
  else none

/-- `SQLTrackerStore._retrieve` as a relation from store state to possible
results, quantifying over the database's choice of row order. -/
def SQLRetrieveRel (s : SQLTrackerStore) (sender_id : String)
    (fetch_events_from_all_sessions : Bool)
    (res : Option DialogueStateTracker) : Prop :=
  ∃ result, IsQueryResult s.rows sender_id fetch_events_from_all_sessions result ∧
    res = sqlRetrieveOfRows s sender_id result

/-- `SQLTrackerStore.retrieve`: the default windowed retrieve, dispatching
on the deprecated flag exactly as the source does. -/
def SQLRetrieveDefault (s : SQLTrackerStore) (sender_id : String)
    (res : Option DialogueStateTracker) : Prop :=
  SQLRetrieveRel s sender_id s.fetchAllFlag res

/-- `SQLTrackerStore.retrieve_full_tracker`. -/
def SQLRetrieveFull (s : SQLTrackerStore) (sender_id : String)
    (res : Option DialogueStateTracker) : Prop :=
  SQLRetrieveRel s sender_id true res

/-- `TrackerStore.number_of_existing_events` as inherited by the SQL
store: the event count of the default retrieve's tracker, or 0 on absence.
Every possible retrieve result has the same event count (a permutation
does not change length), so the count is a well-defined function of the
store state; `retrieveDefault_event_count` below justifies this. -/
def SQLTrackerStore.number_of_existing_events (s : SQLTrackerStore)
    (sender_id : String) : Nat :=
  if s.domain.isSome then (queryRows s.rows sender_id s.fetchAllFlag).length
  else 0

/-- `TrackerStore.stream_events` as inherited by the SQL store. -/
def SQLTrackerStore.stream_events (s : SQLTrackerStore)
    (t : DialogueStateTracker) : List Payload :=
  (t.events.drop (s.number_of_existing_events t.sender_id)).map
    (fun e => (t.sender_id, e))

/-- The row `SQLTrackerStore.save` inserts for one event: the sender id,
the event's type, the server-side timestamp, the two denormalized columns
and the full serialized event. -/
def mkRow (sender_id : String) (ts : Nat) (e : Event) : SQLEvent :=
  { sender_id := sender_id, type_name := e.type_name, timestamp := ts,
    intent_name := e.intent_name, action_name := e.name, data := e }

/-- The rows inserted for a list of events, stamping the i-th event with
`clock i` (`timestamp = datetime.now(timezone.utc)` per loop iteration:
non-decreasing in reality, and possibly colliding). -/
def mkRows (sender_id : String) (clock : Nat → Nat) :
    Nat → List Event → List SQLEvent
  | _, [] => []
  | i, e :: es => mkRow sender_id (clock i) e :: mkRows sender_id clock (i + 1) es

/-- `SQLTrackerStore.save`: stream to the broker when one is configured,
then count the sender's rows with `_additional_events` (which windows the
count by the same deprecated-flag dispatch as `retrieve`) and append one
row per event beyond that count, in event order.  `clock` supplies the
server timestamps of this call.  Returns the updated store and the
published payloads. -/
def SQLTrackerStore.save (s : SQLTrackerStore) (t : DialogueStateTracker)
    (clock : Nat → Nat) : SQLTrackerStore × List Payload :=
  let published := if s.event_broker then s.stream_events t else []
  let count := (queryRows s.rows t.sender_id s.fetchAllFlag).length
  ({ s with rows := s.rows ++ mkRows t.sender_id clock 0 (t.events.drop count) },
   published)

/-- The event count a retrieve outcome carries (0 on absence). -/
def trackerEventCount : Option DialogueStateTracker → Nat
  | some tr => tr.events.length
  | none => 0

/-! Concrete instances used by counterexamples and witnesses. -/

def sampleDomain : Domain := { slots := [] }

def evA : Event :=
  { type_name := "user", name := none, intent_name := some "hello", payload := 1 }

def evSession : Event :=
  { type_name := sessionStartedTypeName, name := none, intent_name := none,
    payload := 2 }

def evB : Event :=
  { type_name := "action", name := some "utter_x", intent_name := none,
    payload := 3 }

def evC : Event :=
  { type_name := "bot", name := none, intent_name := none, payload := 4 }

def evGreet : Event :=
  { type_name := "action", name := some "greet", intent_name := none,
    payload := 5 }

def emptySQLStore (domain : Option Domain) (broker : Bool) : SQLTrackerStore :=
  { domain := domain, event_broker := broker, max_event_history := none,
    retrieve_events_from_previous_conversation_sessions := none, rows := [] }

def emptyMemStore (domain : Option Domain) (broker : Bool) : InMemoryTrackerStore :=
  { domain := domain, event_broker := broker, max_event_history := none,
    store := fun _ => none }

/-- An in-memory store with an unset domain that nevertheless holds a
serialized log for conversation id `u1`. -/
def memWithLog : InMemoryTrackerStore :=
  { domain := none, event_broker := false, max_event_history := none,
    store := fun id =>
      if id = "u1" then
        some (SerialisedTracker.json { name := "u1", events := [evA] })
      else none }

def c1tracker : DialogueStateTracker :=
  { sender_id := "u1", events := [evA, evB], max_event_history := none }

/-- A save in which the server clock stamps both inserted rows with the
same timestamp (`datetime.now(timezone.utc)` can return equal values on
consecutive calls). -/
def c1tieSaved : SQLTrackerStore :=
  ((emptySQLStore (some sampleDomain) false).save c1tracker (fun _ => 0)).1

/-- A tracker whose event log spans a session boundary:
`[A, SessionStarted, B, C]`. -/
def multiTracker : DialogueStateTracker :=
  { sender_id := "u1", events := [evA, evSession, evB, evC],
    max_event_history := none }

def sqlSavedMulti : SQLTrackerStore :=
  ((emptySQLStore (some sampleDomain) false).save multiTracker (fun i => i)).1

/-- A second save of the unchanged multi-session tracker. -/
def c3saved2 : SQLTrackerStore :=
  (sqlSavedMulti.save multiTracker (fun i => 4 + i)).1

def c4store0 : SQLTrackerStore := emptySQLStore (some sampleDomain) true

def c4pub1 : List Payload := (c4store0.save multiTracker (fun i => i)).2

def c4saved1 : SQLTrackerStore := (c4store0.save multiTracker (fun i => i)).1

/-- Payloads published by a second save of the unchanged tracker. -/
def c4pub2 : List Payload := (c4saved1.save multiTracker (fun i => 4 + i)).2

/-- An SQL store with rows but no domain configured. -/
def c5sqlNoDomain : SQLTrackerStore :=
  { domain := none, event_broker := false, max_event_history := none,
    retrieve_events_from_previous_conversation_sessions := none,
    rows := [mkRow "u3" 0 evA] }

/-- The SQL store after `get_or_create_tracker("u1")` on a fresh id:
the created tracker `[action_listen]` has been saved. -/
def c6sqlSaved1 : SQLTrackerStore :=
  ((emptySQLStore (some sampleDomain) false).save
    { sender_id := "u1", events := [actionListenEvent], max_event_history := none }
    (fun i => i)).1

/-- The store after appending `ActionExecuted("greet")` and saving again. -/
def c6sqlSaved2 : SQLTrackerStore :=
  (c6sqlSaved1.save
    { sender_id := "u1", events := [actionListenEvent, evGreet],
      max_event_history := none }
    (fun i => 1 + i)).1

/-! Infrastructure lemmas about the SQL model. -/

theorem pairwise_and_of {α : Type} {R S : α → α → Prop} :
    ∀ {l : List α}, l.Pairwise R → l.Pairwise S →
      l.Pairwise (fun a b => R a b ∧ S a b)
  | [], _, _ => List.Pairwise.nil
  | _ :: _, List.Pairwise.cons hR hRs, List.Pairwise.cons hS hSs =>
      List.Pairwise.cons (fun b hb => ⟨hR b hb, hS b hb⟩)
        (pairwise_and_of hRs hSs)

/-- Two timestamp-sorted permutations of each other agree when one of them
has strictly increasing timestamps: the `ORDER BY timestamp` result is
unique exactly when no two selected rows share a timestamp. -/
theorem perm_sorted_strict_eq {l r : List SQLEvent}
    (hp : List.Perm r l) (hl : List.Pairwise tsLT l)
    (hr : List.Pairwise tsLE r) : r = l := by
  have hlnd : List.Pairwise (fun a b : SQLEvent => a.timestamp ≠ b.timestamp) l :=
    hl.imp (fun h => Nat.ne_of_lt h)
  have hmapl : (List.map (fun x : SQLEvent => x.timestamp) l).Nodup :=
    List.pairwise_map.mpr hlnd
  have hpm : List.Perm (List.map (fun x : SQLEvent => x.timestamp) r)
      (List.map (fun x : SQLEvent => x.timestamp) l) :=
    hp.map _
  have hmapr : (List.map (fun x : SQLEvent => x.timestamp) r).Nodup :=
    (List.Perm.nodup_iff hpm).mpr hmapl
  have hrnd : List.Pairwise (fun a b : SQLEvent => a.timestamp ≠ b.timestamp) r :=
    List.pairwise_map.mp hmapr
  have hr' : List.Pairwise tsLT r :=
    (pairwise_and_of hr hrnd).imp (fun h => Nat.lt_of_le_of_ne h.1 h.2)
  exact List.eq_of_perm_of_sorted hp hr' hl

/-- When the selected rows have pairwise distinct (strictly increasing)
timestamps, the query result is uniquely determined. -/
theorem isQueryResult_eq {rows : List SQLEvent} {sender_id : String}
    {full : Bool} {result : List SQLEvent}
    (hq : List.Pairwise tsLT (queryRows rows sender_id full))
    (h : IsQueryResult rows sender_id full result) :
    result = queryRows rows sender_id full :=
  perm_sorted_strict_eq h.1 hq h.2

theorem senderRows_append (l₁ l₂ : List SQLEvent) (sender_id : String) :
    senderRows (l₁ ++ l₂) sender_id =
      senderRows l₁ sender_id ++ senderRows l₂ sender_id :=
  List.filter_append l₁ l₂

theorem senderRows_nil_of_fresh {l : List SQLEvent} {sender_id : String}
    (h : ∀ r ∈ l, r.sender_id ≠ sender_id) : senderRows l sender_id = [] := by
  simp only [senderRows, List.filter_eq_nil_iff]
  intro r hr
  simpa using h r hr

theorem queryRows_nil_of_fresh {rows : List SQLEvent} {sender_id : String}
    {full : Bool} (h : ∀ r ∈ rows, r.sender_id ≠ sender_id) :
    queryRows rows sender_id full = [] := by
  unfold queryRows
  rw [senderRows_nil_of_fresh h]
  cases full <;> simp

theorem mkRows_map_data (sender_id : String) (clock : Nat → Nat) :
    ∀ (i : Nat) (es : List Event),
      (mkRows sender_id clock i es).map (fun r => r.data) = es := by
  intro i es
  induction es generalizing i with
  | nil => rfl
  | cons e es ih => simp [mkRows, mkRow, ih]

theorem mkRows_length (sender_id : String) (clock : Nat → Nat) :
    ∀ (i : Nat) (es : List Event),
      (mkRows sender_id clock i es).length = es.length := by
  intro i es
  induction es generalizing i with
  | nil => rfl
  | cons e es ih => simp [mkRows, ih]

theorem mkRows_ne_nil {sender_id : String} {clock : Nat → Nat} {i : Nat}
    {es : List Event} (h : es ≠ []) : mkRows sender_id clock i es ≠ [] := by
  cases es with
  | nil => exact absurd rfl h
  | cons e es => simp [mkRows]

theorem mem_mkRows_sender {sender_id : String} {clock : Nat → Nat} :
    ∀ {i : Nat} {es : List Event} {r : SQLEvent},
      r ∈ mkRows sender_id clock i es → r.sender_id = sender_id := by
  intro i es
  induction es generalizing i with
  | nil => intro r hr; cases hr
  | cons e es ih =>
    intro r hr
    rcases List.mem_cons.mp hr with h | h
    · subst h; rfl
    · exact ih h

theorem mem_mkRows_ts {sender_id : String} {clock : Nat → Nat} :
    ∀ {i : Nat} {es : List Event} {r : SQLEvent},
      r ∈ mkRows sender_id clock i es → ∃ j, i ≤ j ∧ r.timestamp = clock j := by
  intro i es
  induction es generalizing i with
  | nil => intro r hr; cases hr
  | cons e es ih =>
    intro r hr
    rcases List.mem_cons.mp hr with h | h
    · exact ⟨i, Nat.le_refl i, by rw [h]; rfl⟩
    · obtain ⟨j, hij, hts⟩ := ih h
      exact ⟨j, Nat.le_trans (Nat.le_succ i) hij, hts⟩

theorem mkRows_pairwise_lt {sender_id : String} {clock : Nat → Nat}
    (hclock : StrictMono clock) :
    ∀ (i : Nat) (es : List Event),
      List.Pairwise tsLT (mkRows sender_id clock i es) := by
  intro i es
  induction es generalizing i with
  | nil => exact List.Pairwise.nil
  | cons e es ih =>
    refine List.Pairwise.cons ?_ (ih (i + 1))
    intro r hr
    obtain ⟨j, hij, hts⟩ := mem_mkRows_ts hr
    show (mkRow sender_id (clock i) e).timestamp < r.timestamp
    rw [hts]
    exact hclock (Nat.lt_of_lt_of_le (Nat.lt_succ_self i) hij)

theorem senderRows_mkRows (sender_id : String) (clock : Nat → Nat)
    (i : Nat) (es : List Event) :
    senderRows (mkRows sender_id clock i es) sender_id =
      mkRows sender_id clock i es := by
  rw [senderRows, List.filter_eq_self]
  intro r hr
  simp [mem_mkRows_sender hr]

/-- The rows a save appends to a store holding no rows for the tracker's
sender id: the whole event list, stamped from index 0. -/
theorem save_rows_fresh {s : SQLTrackerStore} {t : DialogueStateTracker}
    {clock : Nat → Nat} (h : ∀ r ∈ s.rows, r.sender_id ≠ t.sender_id) :
    ((s.save t clock).1).rows =
      s.rows ++ mkRows t.sender_id clock 0 t.events := by
  simp [SQLTrackerStore.save, queryRows_nil_of_fresh h]

/-- Sanity check for `number_of_existing_events`: every possible result of
the default retrieve carries that many events. -/
theorem retrieveDefault_event_count (s : SQLTrackerStore) (sender_id : String)
    (res : Option DialogueStateTracker) (h : SQLRetrieveDefault s sender_id res) :
    trackerEventCount res = s.number_of_existing_events sender_id := by
  obtain ⟨r, hq, hr⟩ := h
  subst hr
  have hlen : r.length = (queryRows s.rows sender_id s.fetchAllFlag).length :=
    hq.1.length_eq
  unfold sqlRetrieveOfRows SQLTrackerStore.number_of_existing_events
  by_cases hd : s.domain.isSome = true
  · by_cases hnil : r = []
    · subst hnil
      simp [hd, trackerEventCount, ← hlen]
    · simp [hd, hnil, trackerEventCount, ← hlen]
  · simp [hd, trackerEventCount]

theorem mkRows_filter_session_nil {sender_id : String} {clock : Nat → Nat} :
    ∀ (i : Nat) (es : List Event),
      (∀ e ∈ es, e.type_name ≠ sessionStartedTypeName) →
      (mkRows sender_id clock i es).filter
        (fun r => r.type_name == sessionStartedTypeName) = [] := by
  intro i es
  induction es generalizing i with
  | nil => intro _; rfl
  | cons e es ih =>
    intro h
    have he : e.type_name ≠ sessionStartedTypeName := h e (List.mem_cons_self e es)
    have ht := ih (i + 1) (fun x hx => h x (List.mem_cons_of_mem e hx))
    simp [mkRows, mkRow, he, ht]

theorem mkRows_filter_session_cons {sender_id : String} {clock : Nat → Nat}
    (i : Nat) (e : Event) (es : List Event)
    (htail : ∀ x ∈ es, x.type_name ≠ sessionStartedTypeName) :
    (mkRows sender_id clock i (e :: es)).filter
        (fun r => r.type_name == sessionStartedTypeName) =
      if e.type_name = sessionStartedTypeName then
        [mkRow sender_id (clock i) e]
      else [] := by
  by_cases h : e.type_name = sessionStartedTypeName <;>
    simp [mkRows, mkRow, h, mkRows_filter_session_nil (i + 1) es htail]

/-- A save appends nothing when the already-persisted count covers the
whole event list. -/
theorem save_rows_noop {s1 : SQLTrackerStore} {t : DialogueStateTracker}
    {clock2 : Nat → Nat}
    (h : t.events.drop
      ((queryRows s1.rows t.sender_id s1.fetchAllFlag).length) = []) :
    ((s1.save t clock2).1).rows = s1.rows := by
  simp [SQLTrackerStore.save, h, mkRows]

theorem im_retrieve_sender {m : InMemoryTrackerStore} {sender_id : String}
    {tr : DialogueStateTracker} (h : m.retrieve sender_id = some tr) :
    tr.sender_id = sender_id := by
  unfold InMemoryTrackerStore.retrieve at h
  cases hs : m.store sender_id with
  | none => rw [hs] at h; cases h
  | some s =>
    rw [hs] at h
    cases s with
    | json d => injection h with h; rw [← h]; rfl
    | pickled d => injection h with h; rw [← h]; rfl

/-- `get_or_create_tracker` always leaves the store's
`max_event_history` equal to its argument, in both branches. -/
theorem im_get_or_create_mh (m : InMemoryTrackerStore) (sender_id : String)
    (mh : Option Nat) (app : Bool) :
    (m.get_or_create_tracker sender_id mh app).2.max_event_history = mh := by
  unfold InMemoryTrackerStore.get_or_create_tracker
  cases h : InMemoryTrackerStore.retrieve
      { m with max_event_history := mh } sender_id with
  | some t => simp [h]
  | none =>
    simp [h, InMemoryTrackerStore.create_tracker, InMemoryTrackerStore.save]

/-- The tracker `get_or_create_tracker` returns always belongs to the
requested conversation id, in both branches. -/
theorem im_get_or_create_sender (m : InMemoryTrackerStore) (sender_id : String)
    (mh : Option Nat) (app : Bool) :
    (m.get_or_create_tracker sender_id mh app).1.sender_id = sender_id := by
  unfold InMemoryTrackerStore.get_or_create_tracker
  cases h : InMemoryTrackerStore.retrieve
      { m with max_event_history := mh } sender_id with
  | some t => simpa [h] using im_retrieve_sender h
  | none =>
    cases app <;>
      simp [h, InMemoryTrackerStore.create_tracker,
        InMemoryTrackerStore.init_tracker, DialogueStateTracker.update]

/-! Claim theorems. -/

/-- C7: for a primary store whose operation raises any exception,
`FailSafeTrackerStore.retrieve` returns absent and `keys` returns the
empty collection, each after exactly one error-callback invocation, and
results of a succeeding primary pass through with no callback; `save` on
a failed primary invokes the callback exactly once and then saves to the
fallback store (which then holds the serialized tracker), and a failure
of the fallback save propagates uncaught. -/
theorem c7_failsafe (e e2 : String) (v : Option DialogueStateTracker)
    (ks : List String) (fb : InMemoryTrackerStore) (t : DialogueStateTracker)
    (fbs : InMemoryTrackerStore → Except String InMemoryTrackerStore) :
    failSafeRetrieve (Except.error e) = (none, 1) ∧
    failSafeRetrieve (Except.ok v) = (v, 0) ∧
    failSafeKeys (Except.error e) = ([], 1) ∧
    failSafeKeys (Except.ok ks) = (ks, 0) ∧
    failSafeSave (Except.error e) fb (fun fb2 => Except.ok (fb2.save t).1) =
      (Except.ok (fb.save t).1, 1) ∧
    ((fb.save t).1).store t.sender_id = some (serialise_tracker t) ∧
    failSafeSave (Except.error e) fb (fun _ => Except.error e2) =
      (Except.error e2, 1) ∧
    failSafeSave (Except.ok ()) fb fbs = (Except.ok fb, 0) := by
  refine ⟨rfl, rfl, rfl, rfl, rfl, ?_, rfl, rfl⟩
  simp [InMemoryTrackerStore.save]

/-- C8: `deserialise_tracker` decodes the current json format with no
deprecation warning, decodes the legacy pickled format with exactly one
deprecation warning, and the legacy decode of a dialogue yields the same
tracker as the json decode of that dialogue. -/
theorem c8_legacy_decode (mh : Option Nat) (sender_id : String) (d : Dialogue) :
    (deserialise_tracker mh sender_id (SerialisedTracker.json d)).2 = 0 ∧
    (deserialise_tracker mh sender_id (SerialisedTracker.pickled d)).2 = 1 ∧
    (deserialise_tracker mh sender_id (SerialisedTracker.pickled d)).1 =
      (deserialise_tracker mh sender_id (SerialisedTracker.json d)).1 :=
  ⟨rfl, rfl, rfl⟩

/-- C9: every `get_or_create_tracker` call overwrites the store's
`max_event_history` with its argument before retrieval — even when an
existing tracker is found (the found tracker is rebuilt under the new
limit) — so a later call using the default `none` resets a limit set by
an earlier call, and `init_tracker` hands the store's current limit to
every tracker it instantiates. -/
theorem c9_max_event_history (m : InMemoryTrackerStore) (sender_id id2 : String)
    (mh : Option Nat) (k : Nat) (app app2 : Bool) (d : Dialogue)
    (hstored : m.store sender_id = some (SerialisedTracker.json d)) :
    (m.get_or_create_tracker sender_id mh app).2.max_event_history = mh ∧
    (m.get_or_create_tracker sender_id mh app).1.max_event_history = mh ∧
    ((m.get_or_create_tracker sender_id (some k) app).2.get_or_create_tracker
        id2 none app2).2.max_event_history = none ∧
    (((m.get_or_create_tracker sender_id (some k) app).2.get_or_create_tracker
        id2 none app2).2.init_tracker id2).max_event_history = none := by
  refine ⟨im_get_or_create_mh m sender_id mh app, ?_, im_get_or_create_mh _ id2 none app2, ?_⟩
  · simp [InMemoryTrackerStore.get_or_create_tracker,
      InMemoryTrackerStore.retrieve, hstored, deserialise_tracker]
  · simp [InMemoryTrackerStore.init_tracker, im_get_or_create_mh]

/-- C9 witness: the overwrite observed on a concrete store that already
holds a tracker for the id. -/
theorem c9_max_event_history_witness :
    (memWithLog.get_or_create_tracker "u1" (some 7) true).2.max_event_history = some 7 ∧
    (memWithLog.get_or_create_tracker "u1" (some 7) true).1.max_event_history = some 7 ∧
    ((memWithLog.get_or_create_tracker "u1" (some 7) true).2.get_or_create_tracker
        "u2" none true).2.max_event_history = none ∧
    (((memWithLog.get_or_create_tracker "u1" (some 7) true).2.get_or_create_tracker
        "u2" none true).2.init_tracker "u2").max_event_history = none :=
  c9_max_event_history memWithLog "u1" "u2" (some 7) 7 true true
    { name := "u1", events := [evA] } (by decide)

/-- C10: `InMemoryTrackerStore.save` modifies only the entry for the
tracker's sender id: for every other conversation id the stored entry and
the result of `retrieve` are unchanged, and the key set is unchanged
except for possibly gaining the tracker's sender id. -/
theorem c10_save_frame (m : InMemoryTrackerStore) (t : DialogueStateTracker)
    (other anyId : String) (h : other ≠ t.sender_id) :
    ((m.save t).1).store other = m.store other ∧
    ((m.save t).1).retrieve other = m.retrieve other ∧
    (((m.save t).1).hasKey anyId ↔ (m.hasKey anyId ∨ anyId = t.sender_id)) := by
  refine ⟨?_, ?_, ?_⟩
  · simp [InMemoryTrackerStore.save, h]
  · simp [InMemoryTrackerStore.retrieve, InMemoryTrackerStore.save, h]
  · by_cases ha : anyId = t.sender_id <;>
      simp [InMemoryTrackerStore.hasKey, InMemoryTrackerStore.save, ha]

/-- C10 witness: the frame effect observed on a concrete store holding a
log for `u1` while saving a tracker for `u2`. -/
theorem c10_save_frame_witness :
    ((memWithLog.save { sender_id := "u2", events := [evB], max_event_history := none }).1).store "u1" =
      memWithLog.store "u1" ∧
    ((memWithLog.save { sender_id := "u2", events := [evB], max_event_history := none }).1).retrieve "u1" =
      memWithLog.retrieve "u1" ∧
    (((memWithLog.save { sender_id := "u2", events := [evB], max_event_history := none }).1).hasKey "u2" ↔
      (memWithLog.hasKey "u2" ∨ "u2" = "u2")) :=
  c10_save_frame memWithLog
    { sender_id := "u2", events := [evB], max_event_history := none }
    "u1" "u2" (by decide)

/-- C5 counterexample: the in-memory backend's `retrieve` does not
consult the domain — with the domain unset and a stored log for `u1`, it
returns the tracker rather than absent, contradicting the claim's
domain-unset clause for "every backend". -/
theorem c5_absence_counterexample :
    memWithLog.domain = none ∧
    memWithLog.retrieve "u1" =
      some { sender_id := "u1", events := [evA], max_event_history := none } := by
  constructor
  · rfl
  · decide

/-- C5 amended: `retrieve` on a conversation id with no stored event log
returns absent without raising for both backends; the SQL backend
additionally returns absent whenever the domain is unset, even if rows
exist — but the in-memory backend does not (it returns the stored tracker
regardless of the domain). -/
theorem c5_absence_amended (m : InMemoryTrackerStore) (s s2 : SQLTrackerStore)
    (sender_id id2 id3 : String) (full : Bool)
    (res res2 : Option DialogueStateTracker)
    (hnolog : m.store sender_id = none)
    (hrows : ∀ r ∈ s.rows, r.sender_id ≠ id2)
    (hres : SQLRetrieveDefault s id2 res)
    (hnodom : s2.domain = none)
    (hres2 : SQLRetrieveRel s2 id3 full res2) :
    m.retrieve sender_id = none ∧ res = none ∧ res2 = none := by
  refine ⟨?_, ?_, ?_⟩
  · simp [InMemoryTrackerStore.retrieve, hnolog]
  · obtain ⟨r, ⟨hperm, _⟩, hr⟩ := hres
    rw [queryRows_nil_of_fresh hrows] at hperm
    have hrnil : r = [] := hperm.eq_nil
    subst hrnil
    simp [hr, sqlRetrieveOfRows]
  · obtain ⟨r, _, hr⟩ := hres2
    simp [hr, sqlRetrieveOfRows, hnodom]

/-- C5 witness: concrete absent results for an unknown id on both
backends, and for a domain-less SQL store holding rows. -/
theorem c5_absence_witness :
    (emptyMemStore (some sampleDomain) false).retrieve "u9" = none ∧
    (none : Option DialogueStateTracker) = none ∧
    (none : Option DialogueStateTracker) = none :=
  c5_absence_amended (emptyMemStore (some sampleDomain) false)
    (emptySQLStore (some sampleDomain) false) c5sqlNoDomain
    "u9" "u9" "u3" true none none
    rfl (by decide)
    ⟨[], ⟨by decide, List.Pairwise.nil⟩, by decide⟩
    rfl
    ⟨[mkRow "u3" 0 evA], ⟨by decide, by decide⟩, by decide⟩

/-- C6: `get_or_create_tracker` never returns null (the returned tracker
always belongs to the requested id); on a fresh id it creates a tracker
whose event log is exactly the synthetic listening event (or empty when
`append_action_listen` is false), immediately persists it via `save`, and
a subsequent retrieve replays the listening event followed by the events
appended and saved since.  The SQL instantiation of the spec's concrete
scenario: after creating `u1` and then saving with an appended
`ActionExecuted("greet")`, the table holds one row per event with the
action names `action_listen` and `greet`, and the default retrieve
replays `[listening-event, greet-action]`. -/
theorem c6_get_or_create (m m2 : InMemoryTrackerStore) (sender_id id2 : String)
    (mh mh2 : Option Nat) (app2 : Bool) (es : List Event)
    (resg : Option DialogueStateTracker)
    (hnone : m.store sender_id = none)
    (hres : SQLRetrieveDefault c6sqlSaved2 "u1" resg) :
    (m2.get_or_create_tracker id2 mh2 app2).1.sender_id = id2 ∧
    (m.get_or_create_tracker sender_id mh true).1.events = [actionListenEvent] ∧
    (m.get_or_create_tracker sender_id mh false).1.events = [] ∧
    (m.get_or_create_tracker sender_id mh true).2.store sender_id =
      some (serialise_tracker
        { sender_id := sender_id, events := [actionListenEvent],
          max_event_history := mh }) ∧
    ((((m.get_or_create_tracker sender_id mh true).2).save
        { sender_id := sender_id, events := actionListenEvent :: es,
          max_event_history := mh }).1.retrieve sender_id).map
      (fun tr => tr.events) = some (actionListenEvent :: es) ∧
    c6sqlSaved2.rows.map (fun r => r.action_name) =
      [some actionListenName, some "greet"] ∧
    resg = some { sender_id := "u1", events := [actionListenEvent, evGreet],
                  max_event_history := none } := by
  refine ⟨im_get_or_create_sender m2 id2 mh2 app2, ?_, ?_, ?_, ?_, by decide, ?_⟩
  · simp [InMemoryTrackerStore.get_or_create_tracker,
      InMemoryTrackerStore.retrieve, hnone,
      InMemoryTrackerStore.create_tracker, InMemoryTrackerStore.init_tracker,
      DialogueStateTracker.update]
  · simp [InMemoryTrackerStore.get_or_create_tracker,
      InMemoryTrackerStore.retrieve, hnone,
      InMemoryTrackerStore.create_tracker, InMemoryTrackerStore.init_tracker]
  · simp [InMemoryTrackerStore.get_or_create_tracker,
      InMemoryTrackerStore.retrieve, hnone,
      InMemoryTrackerStore.create_tracker, InMemoryTrackerStore.init_tracker,
      DialogueStateTracker.update, InMemoryTrackerStore.save,
      serialise_tracker]
  · simp [InMemoryTrackerStore.get_or_create_tracker,
      InMemoryTrackerStore.retrieve, hnone,
      InMemoryTrackerStore.create_tracker, InMemoryTrackerStore.init_tracker,
      DialogueStateTracker.update, InMemoryTrackerStore.save,
      serialise_tracker, deserialise_tracker]
  · obtain ⟨r, hq, hr⟩ := hres
    have hreq : r = queryRows c6sqlSaved2.rows "u1" c6sqlSaved2.fetchAllFlag :=
      isQueryResult_eq (by decide) hq
    rw [hreq] at hr
    rw [hr]
    decide

/-- C6 witness: the scenario at concrete inputs. -/
theorem c6_get_or_create_witness :
    (memWithLog.get_or_create_tracker "u5" none true).1.sender_id = "u5" ∧
    ((emptyMemStore (some sampleDomain) false).get_or_create_tracker "u1" none true).1.events =
      [actionListenEvent] ∧
    ((emptyMemStore (some sampleDomain) false).get_or_create_tracker "u1" none false).1.events =
      [] ∧
    ((emptyMemStore (some sampleDomain) false).get_or_create_tracker "u1" none true).2.store "u1" =
      some (serialise_tracker
        { sender_id := "u1", events := [actionListenEvent],
          max_event_history := none }) ∧
    (((((emptyMemStore (some sampleDomain) false).get_or_create_tracker "u1" none true).2).save
        { sender_id := "u1", events := actionListenEvent :: [evGreet],
          max_event_history := none }).1.retrieve "u1").map
      (fun tr => tr.events) = some (actionListenEvent :: [evGreet]) ∧
    c6sqlSaved2.rows.map (fun r => r.action_name) =
      [some actionListenName, some "greet"] ∧
    (some { sender_id := "u1", events := [actionListenEvent, evGreet],
            max_event_history := none } : Option DialogueStateTracker) =
      some { sender_id := "u1", events := [actionListenEvent, evGreet],
             max_event_history := none } :=
  c6_get_or_create (emptyMemStore (some sampleDomain) false) memWithLog
    "u1" "u5" none none true [evGreet]
    (some { sender_id := "u1", events := [actionListenEvent, evGreet],
            max_event_history := none })
    rfl
    ⟨[mkRow "u1" 0 actionListenEvent, mkRow "u1" 1 evGreet],
      ⟨by decide, by decide⟩, by decide⟩

/-- C4 counterexample: with a broker configured, saving the multi-session
tracker `[A, SessionStarted, B, C]` twice re-publishes `C` on the second
save — the offset is the session-windowed retrieve count (3), not the
number of rows already persisted (4) — contradicting "never re-publishing
events already streamed by a previous save". -/
theorem c4_broker_counterexample :
    c4pub2 = [("u1", evC)] ∧ ("u1", evC) ∈ c4pub1 := by decide

/-- C4 amended: for the in-memory backend each save forwards exactly
`tracker.events[stored_count:]` — when the stored log is a prefix of the
tracker's events this is exactly the not-yet-persisted suffix — with each
payload the sender id merged with the event, in append order; a save for
an id with no stored log publishes every event.  (For the SQL backend the
offset is instead the session-windowed retrieve count, which can
re-publish events from before the latest session boundary.) -/
theorem c4_broker_amended (m m2 : InMemoryTrackerStore)
    (t : DialogueStateTracker) (d : Dialogue) (k : Nat)
    (hbroker : m.event_broker = true)
    (hstored : m.store t.sender_id = some (SerialisedTracker.json d))
    (hpre : d.events = t.events.take k)
    (hk : k ≤ t.events.length)
    (hbroker2 : m2.event_broker = true)
    (hnone : m2.store t.sender_id = none) :
    (m.save t).2 = (t.events.drop k).map (fun e => (t.sender_id, e)) ∧
    (m2.save t).2 = t.events.map (fun e => (t.sender_id, e)) := by
  constructor
  · have hkmin : d.events.length = k := by
      rw [hpre, List.length_take]
      exact Nat.min_eq_left hk
    simp [InMemoryTrackerStore.save, hbroker,
      InMemoryTrackerStore.stream_events,
      InMemoryTrackerStore.number_of_existing_events,
      InMemoryTrackerStore.retrieve, hstored, deserialise_tracker, hkmin]
  · simp [InMemoryTrackerStore.save, hbroker2,
      InMemoryTrackerStore.stream_events,
      InMemoryTrackerStore.number_of_existing_events,
      InMemoryTrackerStore.retrieve, hnone]

/-- C4 witness: exact-delta streaming at concrete inputs — the store
already holds `[evA]` for `u1`, so saving a tracker with `[evA, evB]`
publishes only `evB`; a store with nothing for the id publishes both. -/
theorem c4_broker_amended_witness :
    (({ memWithLog with event_broker := true } : InMemoryTrackerStore).save
        { sender_id := "u1", events := [evA, evB], max_event_history := none }).2 =
      (([evA, evB] : List Event).drop 1).map (fun e => ("u1", e)) ∧
    ((emptyMemStore (some sampleDomain) true).save
        { sender_id := "u1", events := [evA, evB], max_event_history := none }).2 =
      ([evA, evB] : List Event).map (fun e => ("u1", e)) :=
  c4_broker_amended { memWithLog with event_broker := true }
    (emptyMemStore (some sampleDomain) true)
    { sender_id := "u1", events := [evA, evB], max_event_history := none }
    { name := "u1", events := [evA] } 1
    rfl (by decide) (by decide) (by decide) rfl rfl

/-- C1 counterexample: when the two appended events receive equal server
timestamps, `ORDER BY timestamp` (with no secondary sort key) admits the
swapped row order as a valid query result, so a full retrieve can replay
`[evB, evA]` for the saved log `[evA, evB]` — the round-trip claim fails
at equal timestamps. -/
theorem c1_roundtrip_counterexample :
    SQLRetrieveFull c1tieSaved "u1"
      (some { sender_id := "u1", events := [evB, evA],
              max_event_history := none }) ∧
    [evB, evA] ≠ c1tracker.events := by
  constructor
  · exact ⟨[mkRow "u1" 0 evB, mkRow "u1" 0 evA], ⟨by decide, by decide⟩,
      by decide⟩
  · decide

/-- C1 amended: the round-trip holds when the persisted timestamps are
strictly increasing — saving a tracker into an SQL store holding no prior
rows for its conversation id with a strictly monotone server clock makes
every possible full retrieve replay exactly the original event sequence —
and the in-memory backend round-trips unconditionally.  With equal
timestamps the relative order of the tied rows is not determined by the
query (see the counterexample). -/
theorem c1_roundtrip_amended (s : SQLTrackerStore) (m : InMemoryTrackerStore)
    (t : DialogueStateTracker) (clock : Nat → Nat)
    (res : Option DialogueStateTracker)
    (hdom : s.domain.isSome = true)
    (hfresh : ∀ r ∈ s.rows, r.sender_id ≠ t.sender_id)
    (hclock : StrictMono clock)
    (hne : t.events ≠ [])
    (hres : SQLRetrieveFull ((s.save t clock).1) t.sender_id res) :
    res = some { sender_id := t.sender_id, events := t.events,
                 max_event_history := none } ∧
    (((m.save t).1).retrieve t.sender_id).map (fun tr => tr.events) =
      some t.events := by
  constructor
  · obtain ⟨r, hq, hr⟩ := hres
    have hrows : ((s.save t clock).1).rows =
        s.rows ++ mkRows t.sender_id clock 0 t.events :=
      save_rows_fresh hfresh
    have hqr : queryRows ((s.save t clock).1).rows t.sender_id true =
        mkRows t.sender_id clock 0 t.events := by
      unfold queryRows
      rw [if_pos rfl, hrows, senderRows_append, senderRows_nil_of_fresh hfresh,
        senderRows_mkRows, List.nil_append]
    have hpw : List.Pairwise tsLT
        (queryRows ((s.save t clock).1).rows t.sender_id true) := by
      rw [hqr]
      exact mkRows_pairwise_lt hclock 0 t.events
    have hreq := isQueryResult_eq hpw hq
    rw [hqr] at hreq
    rw [hreq] at hr
    rw [hr]
    unfold sqlRetrieveOfRows
    have hdom' : ((s.save t clock).1).domain.isSome = true := hdom
    rw [if_pos ⟨hdom', mkRows_ne_nil hne⟩, mkRows_map_data]
  · simp [InMemoryTrackerStore.save, InMemoryTrackerStore.retrieve,
      serialise_tracker, deserialise_tracker]

/-- C1 witness: the round-trip at a concrete two-event tracker with a
strictly increasing clock. -/
theorem c1_roundtrip_witness :
    (some { sender_id := "u1", events := [evA, evB], max_event_history := none } :
        Option DialogueStateTracker) =
      some { sender_id := "u1", events := c1tracker.events,
             max_event_history := none } ∧
    ((((emptyMemStore none false).save c1tracker).1).retrieve "u1").map
      (fun tr => tr.events) = some c1tracker.events := by
  have h := c1_roundtrip_amended (emptySQLStore (some sampleDomain) false)
    (emptyMemStore none false) c1tracker (fun i => i)
    (some { sender_id := "u1", events := [evA, evB], max_event_history := none })
    rfl (by decide) (fun _ _ hab => hab) (by decide)
    ⟨[mkRow "u1" 0 evA, mkRow "u1" 1 evB], ⟨by decide, by decide⟩, by decide⟩
  exact h

/-- C2 counterexample: for the persisted log `[A, SessionStarted, B, C]`
the windowing filter is `timestamp >= session_start`, which keeps the
`SessionStarted` row itself — the default retrieve can replay
`[SessionStarted, B, C]`, not the claimed `[B, C]`. -/
theorem c2_windowing_counterexample :
    SQLRetrieveDefault sqlSavedMulti "u1"
      (some { sender_id := "u1", events := [evSession, evB, evC],
              max_event_history := none }) ∧
    [evSession, evB, evC] ≠ [evB, evC] := by
  constructor
  · exact ⟨[mkRow "u1" 1 evSession, mkRow "u1" 2 evB, mkRow "u1" 3 evC],
      ⟨by decide, by decide⟩, by decide⟩
  · decide

/-- C2 amended: given a persisted event log `[A, SessionStarted, B, C]`
(saved with strictly increasing timestamps), default `retrieve` returns a
tracker replaying exactly `[SessionStarted, B, C]` — the suffix of events
at or after the most recent session boundary, boundary included — and
`retrieve_full_tracker` returns a tracker replaying exactly
`[A, SessionStarted, B, C]`. -/
theorem c2_windowing_amended (s s' : SQLTrackerStore)
    (t : DialogueStateTracker) (ea sE eb ec : Event)
    (sender_id : String)
    (res resF : Option DialogueStateTracker)
    (hdom : s.domain.isSome = true)
    (hflag : s.retrieve_events_from_previous_conversation_sessions = none)
    (hfresh : ∀ r ∈ s.rows, r.sender_id ≠ sender_id)
    (hS : sE.type_name = sessionStartedTypeName)
    (ha : ea.type_name ≠ sessionStartedTypeName)
    (hb : eb.type_name ≠ sessionStartedTypeName)
    (hc : ec.type_name ≠ sessionStartedTypeName)
    (htsender : t.sender_id = sender_id)
    (htevents : t.events = [ea, sE, eb, ec])
    (hsave : s' = (s.save t (fun i => i)).1)
    (hres : SQLRetrieveDefault s' sender_id res)
    (hresF : SQLRetrieveFull s' sender_id resF) :
    res = some { sender_id := sender_id, events := [sE, eb, ec],
                 max_event_history := none } ∧
    resF = some { sender_id := sender_id, events := [ea, sE, eb, ec],
                  max_event_history := none } := by
  have hfresh2 : ∀ r ∈ s.rows, r.sender_id ≠ t.sender_id := by
    rw [htsender]; exact hfresh
  have hdom' : s'.domain.isSome = true := by
    rw [hsave]; simpa [SQLTrackerStore.save] using hdom
  have hfl : s'.fetchAllFlag = false := by
    rw [hsave]
    simp [SQLTrackerStore.fetchAllFlag, SQLTrackerStore.save, hflag]
  have hN : mkRows sender_id (fun i => i) 0 [ea, sE, eb, ec] =
      [mkRow sender_id 0 ea, mkRow sender_id 1 sE, mkRow sender_id 2 eb,
       mkRow sender_id 3 ec] := by
    norm_num [mkRows]
  have hsr : senderRows s'.rows sender_id =
      [mkRow sender_id 0 ea, mkRow sender_id 1 sE, mkRow sender_id 2 eb,
       mkRow sender_id 3 ec] := by
    rw [hsave, save_rows_fresh hfresh2, htsender, htevents, senderRows_append,
      senderRows_nil_of_fresh hfresh, List.nil_append, senderRows_mkRows, hN]
  have hba : (ea.type_name == sessionStartedTypeName) = false := by simp [ha]
  have hbb : (eb.type_name == sessionStartedTypeName) = false := by simp [hb]
  have hbc : (ec.type_name == sessionStartedTypeName) = false := by simp [hc]
  have hbS : (sE.type_name == sessionStartedTypeName) = true := by simp [hS]
  have hstart : sessionStart s'.rows sender_id = some 1 := by
    unfold sessionStart sessionStartTimes
    rw [hsr]
    simp [mkRow, hba, hbb, hbc, hbS, List.max?]
  have hq : queryRows s'.rows sender_id false =
      [mkRow sender_id 1 sE, mkRow sender_id 2 eb, mkRow sender_id 3 ec] := by
    unfold queryRows
    rw [if_neg (by decide), hsr, hstart]
    simp [inWindow, mkRow]
  have hqF : queryRows s'.rows sender_id true =
      [mkRow sender_id 0 ea, mkRow sender_id 1 sE, mkRow sender_id 2 eb,
       mkRow sender_id 3 ec] := by
    unfold queryRows
    rw [if_pos rfl]
    exact hsr
  have hpw : List.Pairwise tsLT (queryRows s'.rows sender_id false) := by
    rw [hq]
    norm_num [List.pairwise_cons, tsLT, mkRow]
  have hpwF : List.Pairwise tsLT (queryRows s'.rows sender_id true) := by
    rw [hqF]
    norm_num [List.pairwise_cons, tsLT, mkRow]
  constructor
  · unfold SQLRetrieveDefault at hres
    rw [hfl] at hres
    obtain ⟨r, hqr, hrr⟩ := hres
    have hreq := isQueryResult_eq hpw hqr
    rw [hq] at hreq
    subst hreq
    rw [hrr]
    unfold sqlRetrieveOfRows
    rw [if_pos ⟨hdom', by simp⟩]
    simp [mkRow]
  · obtain ⟨r, hqr, hrr⟩ := hresF
    have hreq := isQueryResult_eq hpwF hqr
    rw [hqF] at hreq
    subst hreq
    rw [hrr]
    unfold sqlRetrieveOfRows
    rw [if_pos ⟨hdom', by simp⟩]
    simp [mkRow]

/-- C2 witness: the windowing behaviour at the concrete persisted log
`[evA, evSession, evB, evC]`. -/
theorem c2_windowing_witness :
    (some { sender_id := "u1", events := [evSession, evB, evC],
            max_event_history := none } : Option DialogueStateTracker) =
      some { sender_id := "u1", events := [evSession, evB, evC],
             max_event_history := none } ∧
    (some { sender_id := "u1", events := [evA, evSession, evB, evC],
            max_event_history := none } : Option DialogueStateTracker) =
      some { sender_id := "u1", events := [evA, evSession, evB, evC],
             max_event_history := none } :=
  c2_windowing_amended (emptySQLStore (some sampleDomain) false) sqlSavedMulti
    multiTracker evA evSession evB evC "u1"
    (some { sender_id := "u1", events := [evSession, evB, evC],
            max_event_history := none })
    (some { sender_id := "u1", events := [evA, evSession, evB, evC],
            max_event_history := none })
    rfl rfl (by decide) rfl (by decide) (by decide) (by decide) rfl rfl rfl
    ⟨[mkRow "u1" 1 evSession, mkRow "u1" 2 evB, mkRow "u1" 3 evC],
      ⟨by decide, by decide⟩, by decide⟩
    ⟨[mkRow "u1" 0 evA, mkRow "u1" 1 evSession, mkRow "u1" 2 evB,
      mkRow "u1" 3 evC], ⟨by decide, by decide⟩, by decide⟩

/-- C3 counterexample: saving the multi-session tracker
`[A, SessionStarted, B, C]` into an empty store persists 4 rows; a second
save of the unchanged tracker inserts one more row (a duplicate of `C`),
because `_additional_events` counts with the session-windowed query
(3 rows at or after the boundary) instead of all 4 persisted rows. -/
theorem c3_idempotence_counterexample :
    sqlSavedMulti.rows.length = 4 ∧ c3saved2.rows.length = 5 := by decide

/-- C3 amended: a second save of an unmutated tracker inserts zero
additional SQL rows provided the tracker's event list contains no
session-boundary event after its first position (so in particular for
trackers obtained from the default windowed retrieve, whose log starts at
the boundary, and for single-session logs); a tracker whose events span
an earlier completed session is re-appended from the boundary onward (see
the counterexample).  The in-memory backend overwrites the entry with the
same serialized log, leaving the map unchanged. -/
theorem c3_idempotence_amended (s : SQLTrackerStore) (m : InMemoryTrackerStore)
    (t : DialogueStateTracker) (clock clock2 : Nat → Nat)
    (hflag : s.retrieve_events_from_previous_conversation_sessions = none)
    (hfresh : ∀ r ∈ s.rows, r.sender_id ≠ t.sender_id)
    (hmono : Monotone clock)
    (htail : ∀ e ∈ t.events.drop 1, e.type_name ≠ sessionStartedTypeName) :
    (((s.save t clock).1).save t clock2).1.rows = ((s.save t clock).1).rows ∧
    (((m.save t).1).save t).1.store = ((m.save t).1).store := by
  constructor
  · have hfl1 : ((s.save t clock).1).fetchAllFlag = false := by
      simp [SQLTrackerStore.fetchAllFlag, SQLTrackerStore.save, hflag]
    have hsr1 : senderRows ((s.save t clock).1).rows t.sender_id =
        mkRows t.sender_id clock 0 t.events := by
      rw [save_rows_fresh hfresh, senderRows_append,
        senderRows_nil_of_fresh hfresh, senderRows_mkRows, List.nil_append]
    have hssEq : sessionStart ((s.save t clock).1).rows t.sender_id =
        (((mkRows t.sender_id clock 0 t.events).filter
            (fun r => r.type_name == sessionStartedTypeName)).map
          (fun r => r.timestamp)).max? := by
      unfold sessionStart sessionStartTimes
      rw [hsr1]
    have hqr1 : queryRows ((s.save t clock).1).rows t.sender_id false =
        mkRows t.sender_id clock 0 t.events := by
      unfold queryRows
      rw [if_neg (by decide), hsr1]
      apply List.filter_eq_self.mpr
      intro r hr
      cases hE : t.events with
      | nil =>
        rw [hE] at hr
        simp [mkRows] at hr
      | cons e es =>
        have htail' : ∀ x ∈ es, x.type_name ≠ sessionStartedTypeName := by
          rw [hE] at htail
          simpa using htail
        rw [hE] at hssEq
        rw [mkRows_filter_session_cons 0 e es htail'] at hssEq
        obtain ⟨j, _, hts⟩ := mem_mkRows_ts hr
        by_cases he : e.type_name = sessionStartedTypeName
        · rw [if_pos he] at hssEq
          simp only [mkRow, List.map, List.max?] at hssEq
          rw [hssEq]
          unfold inWindow
          rw [hts]
          exact decide_eq_true (hmono (Nat.zero_le j))
        · rw [if_neg he] at hssEq
          simp only [List.map, List.max?] at hssEq
          rw [hssEq]
          rfl
    apply save_rows_noop
    rw [hfl1, hqr1, mkRows_length]
    simp
  · funext sid
    by_cases h : sid = t.sender_id <;>
      simp [InMemoryTrackerStore.save, h]

/-- C3 witness: idempotence at a concrete tracker `[SessionStarted, B, C]`
whose log starts at the session boundary. -/
theorem c3_idempotence_witness :
    ((((emptySQLStore (some sampleDomain) false).save
        { sender_id := "u1", events := [evSession, evB, evC],
          max_event_history := none } (fun i => i)).1).save
      { sender_id := "u1", events := [evSession, evB, evC],
        max_event_history := none } (fun i => 3 + i)).1.rows =
      (((emptySQLStore (some sampleDomain) false).save
        { sender_id := "u1", events := [evSession, evB, evC],
          max_event_history := none } (fun i => i)).1).rows ∧
    ((((emptyMemStore none false).save
        { sender_id := "u1", events := [evSession, evB, evC],
          max_event_history := none }).1).save
      { sender_id := "u1", events := [evSession, evB, evC],
        max_event_history := none }).1.store =
      (((emptyMemStore none false).save
        { sender_id := "u1", events := [evSession, evB, evC],
          max_event_history := none }).1).store :=
  c3_idempotence_amended (emptySQLStore (some sampleDomain) false)
    (emptyMemStore none false)
    { sender_id := "u1", events := [evSession, evB, evC],
      max_event_history := none }
    (fun i => i) (fun i => 3 + i)
    rfl (by decide) (fun _ _ hab => hab) (by decide)

end TrackerStoreModel
